import Mathlib

/-!
A shallow embedding of the DigitalVFO control scripts
(`control_software/test.py`, `pyInstrument/pyinstrument.py`,
`pyInstrument/serial_test.py`) and of the log-file parser
(`pyInstrument/charge2.py`).

Serial-port enumeration, the serial device and the wall clock are external
collaborators: the embedding takes the list of enumerated port descriptors,
the device's responses and the timestamps as parameters and computes the
script's observable behaviour (a trace of events, the log file's lines, the
parsed data) as a pure function of them.
-/

namespace DigitalVFO

/-- A serial-port descriptor as pyserial's `comports()` yields it: `device`
is the port path, `description` and `manufacturer` the human-readable
strings, and `vid`/`pid` the USB vendor/product ids (`none` for a port with
no USB ids, as pyserial reports `None` there). -/
structure PortInfo where
  device : String
  description : String
  manufacturer : String
  vid : Option Nat
  pid : Option Nat
deriving DecidableEq, Repr

/-- Comparison used by python's `sorted(comports())`: pyserial's
`ListPortInfo.__lt__` compares the `device` fields with python's string `<`,
which is lexicographic by code point — the lexicographic order on the
strings' character lists. -/
def devLE (a b : PortInfo) : Prop := a.device.data ≤ b.device.data

instance : DecidableRel devLE := fun a b =>
  inferInstanceAs (Decidable (a.device.data ≤ b.device.data))

instance : IsTotal PortInfo devLE := ⟨fun a b => le_total a.device.data b.device.data⟩

instance : IsTrans PortInfo devLE := ⟨fun _ _ _ h h2 => le_trans h h2⟩

/-- Python's `sorted` over the enumerated ports: a stable sort by the
`device` field. A stable sort is determined extensionally by its comparison,
so insertion sort (stable) embeds it. -/
def pySorted (ports : List PortInfo) : List PortInfo := List.insertionSort devLE ports

/-- Python's `range(start, stop, step)` for a positive `step`: the values
`start, start + step, ...` that are strictly below `stop`. -/
def pyRange (start stop step : Nat) : List Nat :=
  List.range' start ((stop - start + step - 1) / step) step

/-- Python's `str.startswith`. -/
def pyStartsWith (s p : String) : Bool := p.data.isPrefixOf s.data

/-- One observable action of a script run: opening the serial port, opening
the output file with mode `w`, printing to stdout, writing a command to the
serial port, reading a line from it, writing to the output file, flushing
it, sleeping, calling `sys.exit`, closing the port. -/
inductive Ev where
  | openPort (dev : String)
  | openFileW (path : String)
  | print (msg : String)
  | write (cmd : String)
  | readLine
  | writeFile (data : String)
  | flush
  | sleep
  | exitCode (code : Nat)
  | close
deriving DecidableEq, Repr

/-- The serial command payloads of a trace, in order. -/
def writesOf (tr : List Ev) : List String :=
  tr.filterMap fun e =>
    match e with
    | Ev.write c => some c
    | _ => none

/-- One result of `ser.read(1)`: `some c` when a byte arrived, `none` when
the read returned the empty bytes object (a timed-out read on a port opened
with a timeout). -/
abbrev ReadResult := Option Char

/-- The `_readline` loop of pyinstrument.py and serial_test.py, run against
a finite sequence of observed `ser.read(1)` results: an empty result is
skipped, a newline stops the loop returning the bytes collected so far
(excluding the newline), any other byte is appended. When the observed
results run out the loop is still running, modelled as `none`. -/
def readlineList : List ReadResult → List Char → Option (List Char)
  | [], _ => none
  | r :: rest, acc =>
    match r with
    | some c => if c = '\n' then some acc else readlineList rest (acc ++ [c])
    | none => readlineList rest acc

/-- A python module value the name of a device locator can be bound to: the
first `def` in the file (whose body calls `usb.core.find` although no `usb`
module is ever imported, so calling it raises `NameError`), or the second,
comports-based `def`. -/
inductive Locator where
  | usbBased
  | comportsBased
deriving DecidableEq, Repr

/-- Result of calling a python function: a value, or a raised `NameError`
naming the unbound identifier. -/
inductive PyResult (α : Type) where
  | ok (val : α)
  | nameError (missing : String)
deriving DecidableEq, Repr

/-- Executing a module's `def` statements in order: each `def` rebinds its
name in the module dictionary, so a later definition shadows an earlier one.
The environment lists the newest binding first. -/
def runDefs (defs : List (String × Locator)) : List (String × Locator) :=
  defs.foldl (fun env d => d :: env) []

/-- Looking a name up in the module dictionary built by `runDefs`: the
newest binding wins. -/
def lookupName (env : List (String × Locator)) (n : String) : Option Locator :=
  (env.find? fun b => b.1 == n).map fun b => b.2

end DigitalVFO

namespace DigitalVFO.ControlTest

/-- Lines 13–20 of control_software/test.py: walk `comports()` in
enumeration order and collect the `device` path of every port whose
description is `USB Serial` and whose manufacturer is `Teensyduino`. -/
def teensy_devices (ports : List PortInfo) : List String :=
  (ports.filter fun i => i.description == "USB Serial" && i.manufacturer == "Teensyduino").map
    fun i => i.device

/-- The frequency values of the sweep loop `range(1000000, 30000000+1, 1000)`. -/
def sweepFreqs : List Nat := pyRange 1000000 (30000000 + 1) 1000

/-- The command f-string `FS{freq};`. -/
def fsCmd (freq : Nat) : String := "FS" ++ toString freq ++ ";"

/-- Trace of control_software/test.py, given the enumerated ports and the
device's response to `ID;`: with exactly one Teensy the port is opened, the
identity is queried, a mismatching answer prints a message and exits with
status 1, a matching answer runs the frequency sweep and closes the port;
with zero or more than one Teensy a message is printed and the script falls
off the end. -/
def controlMain (ports : List PortInfo) (idResponse : String) : List Ev :=
  match teensy_devices ports with
  | [dev] =>
    [Ev.openPort dev, Ev.print ("Opening device " ++ dev), Ev.write "ID;", Ev.readLine] ++
      (if pyStartsWith idResponse "DigitalVFO" then
        (sweepFreqs.flatMap fun freq => [Ev.write (fsCmd freq), Ev.readLine, Ev.sleep]) ++
          [Ev.close]
      else
        [Ev.print ("Sorry, not a DigitalVFO device, ID=" ++ idResponse), Ev.exitCode 1])
  | [] => [Ev.print "Can\x27t find any Teensy devices to control."]
  | _ :: _ :: _ => [Ev.print "Too many Teensy devices - can\x27t choose!"]

end DigitalVFO.ControlTest

namespace DigitalVFO.PyInstrument

/-- Teensy USB identifiers of pyinstrument.py. -/
def VendorID : Nat := 0x16c0

/-- Teensy USB identifiers of pyinstrument.py. -/
def ProductID : Nat := 0x0483

/-- The second (and, by shadowing, the effective) definition of
`find_teensy` in pyinstrument.py: sort `comports()` by device path and keep
the ports whose `vid`/`pid` equal the Teensy identifiers. -/
def find_teensy (ports : List PortInfo) : List PortInfo :=
  (pySorted ports).filter fun d => d.vid == some VendorID && d.pid == some ProductID

/-- The two module-level bindings of the name `find_teensy`, in source
order: the `usb.core.find`-based body first, the comports-based body
second. -/
def moduleBindings : List (String × Locator) :=
  [("find_teensy", Locator.usbBased), ("find_teensy", Locator.comportsBased)]

/-- Calling the function a `Locator` value stands for: the first body
references the never-imported `usb` module and raises `NameError`; the
second returns the filtered, sorted port list. -/
def callLocator (l : Locator) (ports : List PortInfo) : PyResult (List PortInfo) :=
  match l with
  | Locator.usbBased => PyResult.nameError "usb"
  | Locator.comportsBased => PyResult.ok (find_teensy ports)

/-- The characters of the record f-string `{dt},{line[:-1]}` of
pyinstrument.py's main loop: the timestamp, a comma, and the line read from
the device with its final character removed (`_readline` has already
dropped the newline). -/
def recordChars (dt line : List Char) : List Char := dt ++ ',' :: line.dropLast

/-- The record line as a string. -/
def record (dt line : String) : String := String.mk (recordChars dt.data line.data)

/-- The count message `f"{len(list(devices))} teensy device{...} found"`. -/
def countMsg (devices : List PortInfo) : String :=
  toString devices.length ++ " teensy device" ++
    (if devices.length != 1 then "s" else "") ++ " found"

/-- One loop iteration of pyinstrument.py's `main`, given that iteration's
`datetime.now().isoformat()` timestamp and the line `_readline` returned:
write `VG;`, read the answer, append the record line, flush, sleep 30s. -/
def cycleEvents (c : String × String) : List Ev :=
  [Ev.write "VG;", Ev.readLine, Ev.writeFile (record c.1 c.2 ++ "\n"), Ev.flush, Ev.sleep]

/-- Trace of pyinstrument.py's `main(out_file)`: print the device count and
the devices, print `Reading...`, and with exactly one device open the output
file (mode `w`), open that device's port and loop; `cycles` lists the
timestamp and line read of each completed iteration of the (otherwise
unbounded) loop. With zero or several devices `main` returns after the
prints. -/
def pyMain (ports : List PortInfo) (outFile : String) (cycles : List (String × String)) :
    List Ev :=
  Ev.print (countMsg (find_teensy ports)) ::
    ((find_teensy ports).map fun x => Ev.print ("    " ++ x.device)) ++
      (Ev.print "\nReading..." ::
        match find_teensy ports with
        | [d] => Ev.openFileW outFile :: Ev.openPort d.device :: cycles.flatMap cycleEvents
        | _ => [])

/-- Effect of `open(out_file, 'w')` on the file's lines: mode `w`
truncates, whatever the file held before the session is discarded. -/
def pyOpenW (_existing : List String) : List String := []

/-- One cycle's effect on the file: `f.write(data + '\n'); f.flush()`
appends exactly one line. -/
def cycleAppend (file : List String) (c : String × String) : List String :=
  file ++ [record c.1 c.2]

/-- The log file's lines after `main` has opened it over `existing` lines
and run the given cycles. -/
def fileAfter (existing : List String) (cycles : List (String × String)) : List String :=
  cycles.foldl cycleAppend (pyOpenW existing)

/-- The `sys.argv` gate at the bottom of pyinstrument.py (serial_test.py is
textually identical): `file` is `__file__`, `argv0` is `sys.argv[0]` and
`args` is `sys.argv[1:]`. When `argv0` equals `file` the script demands
`len(sys.argv) == 2`, otherwise `len(sys.argv) == 3`; a failed check prints
the usage message and exits with status 1 resp. 2, a passed check hands
`sys.argv[1]` to `main`. -/
def argvGate (file argv0 : String) (args : List String) : Except Nat String :=
  if argv0 == file then
    match args with
    | [a1] => Except.ok a1
    | _ => Except.error 1
  else
    match args with
    | [a1, _] => Except.ok a1
    | _ => Except.error 2

/-- The whole script: run the argv gate; on failure print the usage message
and exit with the non-zero status, on success run `main` on the supplied
output file. -/
def pyScript (file argv0 : String) (args : List String) (ports : List PortInfo)
    (cycles : List (String × String)) : List Ev :=
  match argvGate file argv0 args with
  | Except.error c => [Ev.print "Usage: pyinstrument <output_file>", Ev.exitCode c]
  | Except.ok out => pyMain ports out cycles

end DigitalVFO.PyInstrument

namespace DigitalVFO.SerialTest

/-- USB/FTDI board identifiers of serial_test.py. -/
def VendorID : Nat := 0x0403

/-- USB/FTDI board identifiers of serial_test.py. -/
def ProductID : Nat := 0x6001

/-- The second (and, by shadowing, the effective) definition of
`find_device` in serial_test.py: sort `comports()` by device path and keep
the ports whose `vid`/`pid` equal the FTDI identifiers. -/
def find_device (ports : List PortInfo) : List PortInfo :=
  (pySorted ports).filter fun d => d.vid == some VendorID && d.pid == some ProductID

/-- The two module-level bindings of the name `find_device`, in source
order. -/
def moduleBindings : List (String × Locator) :=
  [("find_device", Locator.usbBased), ("find_device", Locator.comportsBased)]

/-- Calling the function a `Locator` value stands for in serial_test.py. -/
def callLocator (l : Locator) (ports : List PortInfo) : PyResult (List PortInfo) :=
  match l with
  | Locator.usbBased => PyResult.nameError "usb"
  | Locator.comportsBased => PyResult.ok (find_device ports)

end DigitalVFO.SerialTest

namespace DigitalVFO.Charge2

/-- Python's `str.strip` default whitespace set, restricted to ASCII (the
characters the scripts ever write). -/
def isPySpace (c : Char) : Bool :=
  c == ' ' || c == '\t' || c == '\n' || c == '\r' || c == '\x0b' || c == '\x0c'

/-- Python's `line.strip()`: drop whitespace from both ends. -/
def pyStrip (s : List Char) : List Char :=
  ((s.dropWhile isPySpace).reverse.dropWhile isPySpace).reverse

/-- Python's `str.split(',')`: cut the string at every comma; a string with
no comma yields one field. -/
def pySplitComma : List Char → List (List Char)
  | [] => [[]]
  | c :: rest =>
    if c = ',' then [] :: pySplitComma rest
    else
      match pySplitComma rest with
      | [] => [[c]]
      | p :: ps => (c :: p) :: ps

/-- One iteration of charge2.py's parse loop on a raw file line:
`(dt, volts) = line.strip().split(',')` succeeds exactly when the stripped
line has one comma, and returns the two fields; any other field count
raises (the tuple unpacking fails), modelled as `none`. -/
def parseRecordLine (s : List Char) : Option (List Char × List Char) :=
  match pySplitComma (pyStrip s) with
  | [dt, v] => some (dt, v)
  | _ => none

/-- The x-axis computation of charge2.py: `starttime` is the first parsed
timestamp (the `starttime == 0` sentinel only fires before the first
record, a datetime never compares equal to the integer 0), and each point
is `(dt - starttime).total_seconds() / (60 * 60)`. Timestamps are modelled
as rational seconds. -/
def timeAxis (start : Option ℚ) : List ℚ → List ℚ
  | [] => []
  | d :: rest => (d - start.getD d) / (60 * 60) :: timeAxis (some (start.getD d)) rest

end DigitalVFO.Charge2

namespace DigitalVFO.CursorSweep

/-- Modelled from the spec: control_software/test.py initialises
`cursor_index = 0` and `cursor_sign = +1` (lines 14–15) but the loop body
that advances the bouncing cursor is absent from the repository's files.
The spec describes the variant as one that "bounces a cursor index between
two inclusive bounds, reversing direction on hitting either bound
(triangle-wave index)" with bounds [0, 7], starting at 0 with step +1 and
yielding 0,1,2,...,7,6,5,... One step advances the index by the sign,
reversing the sign first whenever the move would leave [0, 7]. -/
def cursorStep (s : Int × Int) : Int × Int :=
  let sign2 := if s.1 + s.2 > 7 ∨ s.1 + s.2 < 0 then -s.2 else s.2
  (s.1 + sign2, sign2)

/-- Modelled from the spec: the cursor state after `n` loop iterations,
from the initial state `cursor_index = 0`, `cursor_sign = +1`. -/
def cursorIter : Nat → Int × Int
  | 0 => (0, 1)
  | n + 1 => cursorStep (cursorIter n)

end DigitalVFO.CursorSweep

namespace DigitalVFO

/-! Helper lemmas shared by several claims. -/

theorem readlineList_isSome (rs : List ReadResult) :
    ∀ acc, (readlineList rs acc).isSome = true ↔ some '\n' ∈ rs := by
  induction rs with
  | nil => intro acc; simp [readlineList]
  | cons r rest ih =>
    intro acc
    match r with
    | none => simpa [readlineList] using ih acc
    | some c =>
      by_cases hc : c = '\n'
      · subst hc; simp [readlineList]
      · simp only [readlineList, if_neg hc, ih]
        simp only [List.mem_cons, Option.some.injEq, iff_or_self]
        intro h; exact absurd h.symm hc

theorem readlineList_newline (line : List Char) (rest : List ReadResult)
    (h : ∀ c ∈ line, c ≠ '\n') :
    ∀ acc, readlineList (line.map some ++ some '\n' :: rest) acc = some (acc ++ line) := by
  induction line with
  | nil => intro acc; simp [readlineList]
  | cons c cs ih =>
    intro acc
    have hc : c ≠ '\n' := h c (List.mem_cons_self c cs)
    have hcs : ∀ d ∈ cs, d ≠ '\n' := fun d hd => h d (List.mem_cons_of_mem c hd)
    show readlineList (some c :: (cs.map some ++ some '\n' :: rest)) acc = some (acc ++ c :: cs)
    simp only [readlineList, if_neg hc, ih hcs, List.append_assoc, List.singleton_append]

theorem sweepFreqs_eq : ControlTest.sweepFreqs = List.range' 1000000 29001 1000 := by
  unfold ControlTest.sweepFreqs pyRange
  norm_num

theorem writesOf_append (a b : List Ev) : writesOf (a ++ b) = writesOf a ++ writesOf b := by
  simp [writesOf, List.filterMap_append]

theorem writesOf_fs_block (l : List Nat) :
    writesOf (l.flatMap fun freq => [Ev.write (ControlTest.fsCmd freq), Ev.readLine, Ev.sleep]) =
      l.map ControlTest.fsCmd := by
  induction l with
  | nil => rfl
  | cons x xs ih => simpa [writesOf, List.filterMap_append] using ih

/-- A generic account of both comports-based locators: sorting then
filtering keeps exactly the ports whose ids match, sorted by device path. -/
theorem filter_sorted_spec (vid pid : Nat) (ports : List PortInfo) :
    ((pySorted ports).filter fun d => d.vid == some vid && d.pid == some pid).Perm
        (ports.filter fun d => d.vid == some vid && d.pid == some pid) ∧
      ((pySorted ports).filter fun d => d.vid == some vid && d.pid == some pid).Sorted devLE ∧
      (∀ d ∈ (pySorted ports).filter fun d => d.vid == some vid && d.pid == some pid,
        d.vid = some vid ∧ d.pid = some pid) ∧
      (∀ d ∈ ports, d.vid = some vid → d.pid = some pid →
        d ∈ (pySorted ports).filter fun d => d.vid == some vid && d.pid == some pid) := by
  refine ⟨List.Perm.filter _ (List.perm_insertionSort devLE ports), ?_, ?_, ?_⟩
  · exact (List.sorted_insertionSort devLE ports).filter _
  · intro d hd
    have := (List.mem_filter.mp hd).2
    simpa using this
  · intro d hd hv hp
    refine List.mem_filter.mpr ⟨?_, by simp [hv, hp]⟩
    exact ((List.perm_insertionSort devLE ports).mem_iff).mpr hd

end DigitalVFO

namespace DigitalVFO

/-- A Teensy port descriptor as pyserial would enumerate it, used as the
concrete input of several witnesses. -/
def portA : PortInfo :=
  { device := "/dev/ttyACM0", description := "USB Serial", manufacturer := "Teensyduino",
    vid := some 0x16c0, pid := some 0x0483 }

/-- A second Teensy port whose device path sorts after `portA`. -/
def portB : PortInfo :=
  { device := "/dev/ttyACM1", description := "USB Serial", manufacturer := "Teensyduino",
    vid := some 0x16c0, pid := some 0x0483 }

/-- C2: the finite frequency-sweep of control_software/test.py sends
exactly 29001 commands, one per loop iteration, the embedded frequencies
strictly increasing from 1000000 to 30000000 inclusive, each command being
exactly `FS<value>;` — and in a run that reaches the sweep the serial
writes are exactly `ID;` followed by those commands. -/
theorem sweep_commands_spec :
    ControlTest.sweepFreqs.length = 29001 ∧
      ControlTest.sweepFreqs.Pairwise (· < ·) ∧
      ControlTest.sweepFreqs.head? = some 1000000 ∧
      ControlTest.sweepFreqs.getLast? = some 30000000 ∧
      (∀ f ∈ ControlTest.sweepFreqs, 1000000 ≤ f ∧ f ≤ 30000000) ∧
      (∀ ports idResponse dev, ControlTest.teensy_devices ports = [dev] →
        pyStartsWith idResponse "DigitalVFO" = true →
        writesOf (ControlTest.controlMain ports idResponse) =
          "ID;" :: ControlTest.sweepFreqs.map ControlTest.fsCmd) := by
  rw [sweepFreqs_eq]
  refine ⟨List.length_range' .., List.pairwise_lt_range' 1000000 29001 1000 (by norm_num),
    rfl, ?_, ?_, ?_⟩
  · have h : (29001 : Nat) = 29000 + 1 := by norm_num
    rw [h, List.range'_concat, List.getLast?_concat]
  · intro f hf
    rw [List.mem_range'] at hf
    obtain ⟨i, hi, rfl⟩ := hf
    omega
  · intro ports idResponse dev hdev hid
    rw [ControlTest.controlMain, hdev, if_pos hid, ← sweepFreqs_eq]
    rw [writesOf_append, writesOf_append, writesOf_fs_block ControlTest.sweepFreqs]
    simp [writesOf]

/-- C4 counterexample: when every read times out (returns the empty bytes
object), `_readline` never returns — after any number of empty reads the
loop is still running, so the configured timeout does not yield a partial
or empty result as the claim states. -/
theorem readline_timeout_never_returns :
    ¬ ∃ n, (readlineList (List.replicate n none) []).isSome = true := by
  rintro ⟨n, h⟩
  rw [readlineList_isSome] at h
  simp [List.mem_replicate] at h

/-- C4 amended: `_readline` returns some result exactly when the sequence
of read results contains a newline byte; when it does, with the newline
preceded by the bytes of `line`, it returns exactly those bytes (the line
up to and excluding the newline). Timed-out reads are skipped, never
returned as a partial result. -/
theorem readline_returns_iff_newline :
    (∀ rs : List ReadResult, (readlineList rs []).isSome = true ↔ some '\n' ∈ rs) ∧
      ∀ (line : List Char) (rest : List ReadResult), (∀ c ∈ line, c ≠ '\n') →
        readlineList (line.map some ++ some '\n' :: rest) [] = some line := by
  refine ⟨fun rs => readlineList_isSome rs [], fun line rest h => ?_⟩
  simpa using readlineList_newline line rest h []

/-- C8 counterexample: the output sink is opened with mode `w`, which
truncates — a line present in the file before the session started is gone
even before the first cycle, so pre-session content is not left unchanged. -/
theorem log_open_truncates :
    PyInstrument.fileAfter ["2018-07-14T21:57:15.234,7.84"] [] = [] ∧
      (["2018-07-14T21:57:15.234,7.84"] : List String) ≠ [] := ⟨rfl, by simp⟩

/-- C8 amended: within a session the sink is append-only — each cycle
appends exactly one record line and leaves every record written earlier in
the session unchanged — but the `open(out_file, 'w')` call truncates the
file, so content present before the session started is discarded, not
preserved. -/
theorem log_append_only_within_session :
    (∀ existing : List String, PyInstrument.fileAfter existing [] = []) ∧
      ∀ (existing : List String) (cycles : List (String × String)) (c : String × String),
        PyInstrument.fileAfter existing (cycles ++ [c]) =
          PyInstrument.fileAfter existing cycles ++ [PyInstrument.record c.1 c.2] := by
  refine ⟨fun existing => rfl, fun existing cycles c => ?_⟩
  simp [PyInstrument.fileAfter, List.foldl_append, PyInstrument.cycleAppend]

/-- C10: in both pyinstrument.py and serial_test.py the second, comports-
based locator definition shadows the first, `usb`-referencing one, so
looking the name up in the module dictionary and calling it always runs the
comports-based body and never raises a `NameError`. -/
theorem shadowed_locator_unreachable :
    lookupName (runDefs PyInstrument.moduleBindings) "find_teensy" =
        some Locator.comportsBased ∧
      lookupName (runDefs SerialTest.moduleBindings) "find_device" =
        some Locator.comportsBased ∧
      (∀ ports l, lookupName (runDefs PyInstrument.moduleBindings) "find_teensy" = some l →
        PyInstrument.callLocator l ports = PyResult.ok (PyInstrument.find_teensy ports)) ∧
      ∀ ports l, lookupName (runDefs SerialTest.moduleBindings) "find_device" = some l →
        SerialTest.callLocator l ports = PyResult.ok (SerialTest.find_device ports) := by
  refine ⟨rfl, rfl, ?_, ?_⟩
  · intro ports l hl
    cases hl
    rfl
  · intro ports l hl
    cases hl
    rfl

/-- C6 counterexample: the locator does not preserve the enumeration order
of the port registry — enumerating `portB` before `portA` (both matching),
`find_teensy` returns them sorted by device path, not in enumeration order,
unlike the order-preserving filter of the raw enumeration. -/
theorem find_teensy_reorders_enumeration :
    PyInstrument.find_teensy [portB, portA] = [portA, portB] ∧
      ([portB, portA].filter fun d =>
        d.vid == some PyInstrument.VendorID && d.pid == some PyInstrument.ProductID) =
        [portB, portA] ∧
      ([portA, portB] : List PortInfo) ≠ [portB, portA] := by decide

/-- C6 amended: each locator returns exactly the descriptors whose
vendor/product ids equal its configured constants — every match included,
every returned descriptor matching, with no side effects — but ordered by
device path (python's `sorted`), not in the enumeration order of the port
registry. -/
theorem locator_filters_and_sorts :
    (∀ ports : List PortInfo,
      (PyInstrument.find_teensy ports).Perm
          (ports.filter fun d =>
            d.vid == some PyInstrument.VendorID && d.pid == some PyInstrument.ProductID) ∧
        (PyInstrument.find_teensy ports).Sorted devLE ∧
        (∀ d ∈ PyInstrument.find_teensy ports,
          d.vid = some PyInstrument.VendorID ∧ d.pid = some PyInstrument.ProductID) ∧
        ∀ d ∈ ports, d.vid = some PyInstrument.VendorID → d.pid = some PyInstrument.ProductID →
          d ∈ PyInstrument.find_teensy ports) ∧
      ∀ ports : List PortInfo,
        (SerialTest.find_device ports).Perm
            (ports.filter fun d =>
              d.vid == some SerialTest.VendorID && d.pid == some SerialTest.ProductID) ∧
          (SerialTest.find_device ports).Sorted devLE ∧
          (∀ d ∈ SerialTest.find_device ports,
            d.vid = some SerialTest.VendorID ∧ d.pid = some SerialTest.ProductID) ∧
          ∀ d ∈ ports, d.vid = some SerialTest.VendorID → d.pid = some SerialTest.ProductID →
            d ∈ SerialTest.find_device ports :=
  ⟨fun ports => filter_sorted_spec PyInstrument.VendorID PyInstrument.ProductID ports,
    fun ports => filter_sorted_spec SerialTest.VendorID SerialTest.ProductID ports⟩

/-- C9 counterexample: invoked with `sys.argv[0]` different from
`__file__`, the gate rejects exactly one positional argument (exiting with
status 2) and proceeds with two positional arguments — against the claim
that the script proceeds if and only if exactly one positional argument is
supplied. -/
theorem argv_gate_counterexample :
    PyInstrument.argvGate "pyinstrument.py" "python3" ["charge.out"] = Except.error 2 ∧
      PyInstrument.argvGate "pyinstrument.py" "python3" ["charge.out", "xyzzy.out"] =
        Except.ok "charge.out" := ⟨rfl, rfl⟩

/-- C9 amended: the gate lets the script proceed to `main` iff exactly one
positional argument is supplied when `sys.argv[0]` equals `__file__`, and
iff exactly two are supplied otherwise (the first being used as the output
path); every rejection prints the usage message and exits with a non-zero
status (1 or 2) without any device access or file write. -/
theorem argv_gate_amended :
    (∀ (file argv0 : String) (args : List String),
      (∃ out, PyInstrument.argvGate file argv0 args = Except.ok out) ↔
        if argv0 = file then args.length = 1 else args.length = 2) ∧
      (∀ (file argv0 : String) (args : List String) (code : Nat),
        PyInstrument.argvGate file argv0 args = Except.error code → code = 1 ∨ code = 2) ∧
      ∀ (file argv0 : String) (args : List String) ports cycles code,
        PyInstrument.argvGate file argv0 args = Except.error code →
          (∀ p, Ev.openPort p ∉ PyInstrument.pyScript file argv0 args ports cycles) ∧
            (∀ s, Ev.writeFile s ∉ PyInstrument.pyScript file argv0 args ports cycles) ∧
            Ev.exitCode code ∈ PyInstrument.pyScript file argv0 args ports cycles := by
  refine ⟨?_, ?_, ?_⟩
  · intro file argv0 args
    by_cases hf : argv0 = file
    · subst hf
      rcases args with _ | ⟨a, _ | ⟨b, t⟩⟩ <;> simp [PyInstrument.argvGate]
    · rcases args with _ | ⟨a, _ | ⟨b, _ | ⟨c, t⟩⟩⟩ <;>
        simp [PyInstrument.argvGate, beq_iff_eq, hf]
  · intro file argv0 args code h
    by_cases hf : argv0 = file
    · subst hf
      rcases args with _ | ⟨a, _ | ⟨b, t⟩⟩ <;>
          simp [PyInstrument.argvGate] at h <;> omega
    · rcases args with _ | ⟨a, _ | ⟨b, _ | ⟨c, t⟩⟩⟩ <;>
          simp [PyInstrument.argvGate, beq_iff_eq, hf] at h <;> omega
  · intro file argv0 args ports cycles code h
    rw [PyInstrument.pyScript, h]
    refine ⟨fun p => by simp, fun s => by simp, by simp⟩

/-- C5: with exactly one Teensy found, a response to `ID;` that does not
start with `DigitalVFO` makes control_software/test.py print a message and
exit with status 1 — the only serial command ever written is `ID;` and the
script writes no file; a response that does start with `DigitalVFO`
proceeds to the frequency sweep with no `sys.exit` call. -/
theorem control_id_mismatch_aborts (ports : List PortInfo) (idResponse dev : String)
    (hdev : ControlTest.teensy_devices ports = [dev]) :
    (pyStartsWith idResponse "DigitalVFO" = false →
      writesOf (ControlTest.controlMain ports idResponse) = ["ID;"] ∧
        Ev.exitCode 1 ∈ ControlTest.controlMain ports idResponse ∧
        ∀ s, Ev.writeFile s ∉ ControlTest.controlMain ports idResponse) ∧
      (pyStartsWith idResponse "DigitalVFO" = true →
        writesOf (ControlTest.controlMain ports idResponse) =
          "ID;" :: ControlTest.sweepFreqs.map ControlTest.fsCmd ∧
          ∀ code, Ev.exitCode code ∉ ControlTest.controlMain ports idResponse) := by
  constructor
  · intro hbad
    rw [ControlTest.controlMain, hdev, if_neg (by simp [hbad])]
    refine ⟨rfl, by simp, fun s => by simp⟩
  · intro hgood
    rw [ControlTest.controlMain, hdev, if_pos hgood]
    refine ⟨?_, fun code => ?_⟩
    · rw [writesOf_append, writesOf_append, writesOf_fs_block ControlTest.sweepFreqs]
      simp [writesOf]
    · simp [List.mem_flatMap]

/-- C5 witness: a concrete single-Teensy enumeration and a mismatching
identification response, pushed through the theorem. -/
theorem control_id_mismatch_aborts_witness :
    writesOf (ControlTest.controlMain [portA] "Arduino Uno") = ["ID;"] :=
  ((control_id_mismatch_aborts [portA] "Arduino Uno" "/dev/ttyACM0" (by decide)).1
    (by decide)).1

/-- Invariant of the spec-modelled bouncing cursor: the index stays inside
[0, 7] and the sign stays in {+1, -1}. -/
theorem cursor_invariant (n : Nat) :
    0 ≤ (CursorSweep.cursorIter n).1 ∧ (CursorSweep.cursorIter n).1 ≤ 7 ∧
      ((CursorSweep.cursorIter n).2 = 1 ∨ (CursorSweep.cursorIter n).2 = -1) := by
  induction n with
  | zero => simp [CursorSweep.cursorIter]
  | succ n ih =>
    obtain ⟨h0, h7, hs⟩ := ih
    simp only [CursorSweep.cursorIter, CursorSweep.cursorStep]
    split_ifs with hb <;> rcases hs with h | h <;> rw [h] at hb ⊢ <;> simp <;> omega

/-- C7 (modelled from the spec): the bouncing cursor with inclusive bounds
[0, 7] never leaves the bounds, reverses direction exactly when moving on
from 0 (heading down) or from 7 (heading up), and from the initial state
(0, +1) traces the triangle wave 0,1,2,...,7,6,5,...,0,1. -/
theorem cursor_triangle_wave :
    (∀ n, 0 ≤ (CursorSweep.cursorIter n).1 ∧ (CursorSweep.cursorIter n).1 ≤ 7 ∧
      ((CursorSweep.cursorIter n).2 = 1 ∨ (CursorSweep.cursorIter n).2 = -1)) ∧
      (∀ n, (CursorSweep.cursorIter (n + 1)).2 ≠ (CursorSweep.cursorIter n).2 ↔
        ((CursorSweep.cursorIter n).1 = 7 ∧ (CursorSweep.cursorIter n).2 = 1) ∨
          ((CursorSweep.cursorIter n).1 = 0 ∧ (CursorSweep.cursorIter n).2 = -1)) ∧
      (List.range 16).map (fun n => (CursorSweep.cursorIter n).1) =
        [0, 1, 2, 3, 4, 5, 6, 7, 6, 5, 4, 3, 2, 1, 0, 1] := by
  refine ⟨cursor_invariant, fun n => ?_, by decide⟩
  obtain ⟨h0, h7, hs⟩ := cursor_invariant n
  simp only [CursorSweep.cursorIter, CursorSweep.cursorStep]
  split_ifs with hb <;> rcases hs with h | h <;> rw [h] at hb ⊢ <;> simp <;> omega

/-- C1: a serial port is opened iff enumeration yields exactly one matching
descriptor. In pyinstrument.py's `main` and in control_software/test.py,
exactly one match opens exactly that port; zero or several matches open no
port, write no record, print a user-facing message and fall off the end of
the script with no `sys.exit` call (a clean exit). -/
theorem unique_match_gates_port_open :
    (∀ (ports : List PortInfo) (outFile : String) (cycles : List (String × String)) d,
      PyInstrument.find_teensy ports = [d] →
        Ev.openPort d.device ∈ PyInstrument.pyMain ports outFile cycles ∧
          ∀ p, Ev.openPort p ∈ PyInstrument.pyMain ports outFile cycles → p = d.device) ∧
      (∀ (ports : List PortInfo) (outFile : String) (cycles : List (String × String)),
        (PyInstrument.find_teensy ports).length ≠ 1 →
          (∀ p, Ev.openPort p ∉ PyInstrument.pyMain ports outFile cycles) ∧
            (∀ s, Ev.writeFile s ∉ PyInstrument.pyMain ports outFile cycles) ∧
            (∃ m, Ev.print m ∈ PyInstrument.pyMain ports outFile cycles) ∧
            ∀ code, Ev.exitCode code ∉ PyInstrument.pyMain ports outFile cycles) ∧
      (∀ (ports : List PortInfo) (idResponse dev : String),
        ControlTest.teensy_devices ports = [dev] →
          Ev.openPort dev ∈ ControlTest.controlMain ports idResponse ∧
            ∀ p, Ev.openPort p ∈ ControlTest.controlMain ports idResponse → p = dev) ∧
      ∀ (ports : List PortInfo) (idResponse : String),
        (ControlTest.teensy_devices ports).length ≠ 1 →
          (∀ p, Ev.openPort p ∉ ControlTest.controlMain ports idResponse) ∧
            (∀ s, Ev.writeFile s ∉ ControlTest.controlMain ports idResponse) ∧
            (∃ m, Ev.print m ∈ ControlTest.controlMain ports idResponse) ∧
            ∀ code, Ev.exitCode code ∉ ControlTest.controlMain ports idResponse := by
  refine ⟨?_, ?_, ?_, ?_⟩
  · intro ports outFile cycles d hd
    constructor
    · simp [PyInstrument.pyMain, hd]
    · intro p hp
      simp [PyInstrument.pyMain, hd, PyInstrument.cycleEvents] at hp
      exact hp
  · intro ports outFile cycles hlen
    rcases hfd : PyInstrument.find_teensy ports with _ | ⟨d1, _ | ⟨d2, rest⟩⟩
    · exact ⟨fun p => by simp [PyInstrument.pyMain, hfd],
        fun s => by simp [PyInstrument.pyMain, hfd],
        ⟨PyInstrument.countMsg (PyInstrument.find_teensy ports),
          by simp [PyInstrument.pyMain]⟩,
        fun code => by simp [PyInstrument.pyMain, hfd]⟩
    · rw [hfd] at hlen
      simp at hlen
    · exact ⟨fun p => by simp [PyInstrument.pyMain, hfd],
        fun s => by simp [PyInstrument.pyMain, hfd],
        ⟨PyInstrument.countMsg (PyInstrument.find_teensy ports),
          by simp [PyInstrument.pyMain]⟩,
        fun code => by simp [PyInstrument.pyMain, hfd]⟩
  · intro ports idResponse dev hdev
    constructor
    · simp [ControlTest.controlMain, hdev]
    · intro p hp
      rw [ControlTest.controlMain, hdev] at hp
      rcases List.mem_append.mp hp with h | h
      · simpa using h
      · split_ifs at h <;> simp [List.mem_flatMap] at h
  · intro ports idResponse hlen
    rcases hdv : ControlTest.teensy_devices ports with _ | ⟨d1, _ | ⟨d2, rest⟩⟩
    · exact ⟨fun p => by simp [ControlTest.controlMain, hdv],
        fun s => by simp [ControlTest.controlMain, hdv],
        ⟨"Can\x27t find any Teensy devices to control.",
          by simp [ControlTest.controlMain, hdv]⟩,
        fun code => by simp [ControlTest.controlMain, hdv]⟩
    · rw [hdv] at hlen
      simp at hlen
    · exact ⟨fun p => by simp [ControlTest.controlMain, hdv],
        fun s => by simp [ControlTest.controlMain, hdv],
        ⟨"Too many Teensy devices - can\x27t choose!",
          by simp [ControlTest.controlMain, hdv]⟩,
        fun code => by simp [ControlTest.controlMain, hdv]⟩

theorem dropWhile_eq_self_of_head (p : Char → Bool) (l : List Char)
    (h : ∀ c, l.head? = some c → p c = false) : l.dropWhile p = l := by
  cases l with
  | nil => rfl
  | cons a t => simp [List.dropWhile_cons, h a rfl]

theorem pySplitComma_no_comma (v : List Char) (h : ∀ c ∈ v, c ≠ ',') :
    Charge2.pySplitComma v = [v] := by
  induction v with
  | nil => rfl
  | cons c t ih =>
    have hc : c ≠ ',' := h c (List.mem_cons_self c t)
    have ht := ih fun d hd => h d (List.mem_cons_of_mem c hd)
    simp [Charge2.pySplitComma, hc, ht]

theorem pySplitComma_single (dt v : List Char)
    (hdt : ∀ c ∈ dt, c ≠ ',') (hv : ∀ c ∈ v, c ≠ ',') :
    Charge2.pySplitComma (dt ++ ',' :: v) = [dt, v] := by
  induction dt with
  | nil => simp [Charge2.pySplitComma, pySplitComma_no_comma v hv]
  | cons c t ih =>
    have hc : c ≠ ',' := hdt c (List.mem_cons_self c t)
    have ht := ih fun d hd => hdt d (List.mem_cons_of_mem c hd)
    simp [Charge2.pySplitComma, hc, ht]

theorem pyStrip_record (dt v : List Char)
    (hdt : ∀ c ∈ dt, Charge2.isPySpace c = false)
    (hv : ∀ c ∈ v, Charge2.isPySpace c = false) :
    Charge2.pyStrip (dt ++ ',' :: (v ++ ['\n'])) = dt ++ ',' :: v := by
  have hfront : (dt ++ ',' :: (v ++ ['\n'])).dropWhile Charge2.isPySpace =
      dt ++ ',' :: (v ++ ['\n']) := by
    apply dropWhile_eq_self_of_head
    intro c hc
    cases dt with
    | nil =>
      simp only [List.nil_append, List.head?_cons, Option.some.injEq] at hc
      rw [← hc]
      rfl
    | cons a t =>
      simp only [List.cons_append, List.head?_cons, Option.some.injEq] at hc
      rw [← hc]
      exact hdt a (List.mem_cons_self a t)
  have hrev : (dt ++ ',' :: (v ++ ['\n'])).reverse =
      '\n' :: (v.reverse ++ ',' :: dt.reverse) := by
    simp
  have hback : (v.reverse ++ ',' :: dt.reverse).dropWhile Charge2.isPySpace =
      v.reverse ++ ',' :: dt.reverse := by
    apply dropWhile_eq_self_of_head
    intro c hc
    cases hvr : v.reverse with
    | nil =>
      rw [hvr] at hc
      simp only [List.nil_append, List.head?_cons, Option.some.injEq] at hc
      rw [← hc]
      rfl
    | cons a t =>
      rw [hvr] at hc
      simp only [List.cons_append, List.head?_cons, Option.some.injEq] at hc
      rw [← hc]
      exact hv a (by
        have : a ∈ v.reverse := by rw [hvr]; exact List.mem_cons_self a t
        simpa using this)
  rw [Charge2.pyStrip, hfront, hrev]
  rw [show (('\n' :: (v.reverse ++ ',' :: dt.reverse)).dropWhile Charge2.isPySpace) =
      ((v.reverse ++ ',' :: dt.reverse).dropWhile Charge2.isPySpace) from rfl, hback]
  simp

theorem parse_record (dt line : List Char)
    (hdt : ∀ c ∈ dt, Charge2.isPySpace c = false ∧ c ≠ ',')
    (hv : ∀ c ∈ line.dropLast, Charge2.isPySpace c = false ∧ c ≠ ',') :
    Charge2.parseRecordLine (PyInstrument.recordChars dt line ++ ['\n']) =
      some (dt, line.dropLast) := by
  have hEq : PyInstrument.recordChars dt line ++ ['\n'] =
      dt ++ ',' :: (line.dropLast ++ ['\n']) := by
    simp [PyInstrument.recordChars]
  rw [Charge2.parseRecordLine, hEq,
    pyStrip_record dt line.dropLast (fun c hc => (hdt c hc).1) (fun c hc => (hv c hc).1),
    pySplitComma_single dt line.dropLast (fun c hc => (hdt c hc).2) (fun c hc => (hv c hc).2)]

theorem timeAxis_some (s : ℚ) (dts : List ℚ) :
    Charge2.timeAxis (some s) dts = dts.map fun d => (d - s) / (60 * 60) := by
  induction dts with
  | nil => rfl
  | cons d rest ih => simp [Charge2.timeAxis, ih]

theorem timeAxis_mono (dts : List ℚ) (h : dts.Chain' (· ≤ ·)) :
    (Charge2.timeAxis none dts).Chain' (· ≤ ·) := by
  cases dts with
  | nil => simp [Charge2.timeAxis]
  | cons d rest =>
    rw [Charge2.timeAxis, timeAxis_some]
    have hmap : (rest.map fun e => (e - d) / (60 * 60)).Chain' (· ≤ ·) := by
      apply List.chain'_map_of_chain' _ ?_ (List.chain'_cons'.mp h).2
      intro a b hab
      rw [div_eq_mul_inv, div_eq_mul_inv]
      exact mul_le_mul_of_nonneg_right (by linarith) (by norm_num)
    cases rest with
    | nil => simp
    | cons e t =>
      rw [List.map_cons, List.chain'_cons]
      have hde : d ≤ e := (List.chain'_cons.mp h).1
      refine ⟨?_, by simpa using hmap⟩
      simp only [Option.getD_none, Option.getD_some]
      rw [div_eq_mul_inv, div_eq_mul_inv]
      exact mul_le_mul_of_nonneg_right (by linarith) (by norm_num)

/-- C3 counterexample: `_readline` already strips the newline, so the
record writes `line[:-1]` — the response with its last character removed.
Parsing the record back yields `7.8` for the device response `7.84`: the
original response string is not reproduced. -/
theorem record_roundtrip_drops_last_char :
    Charge2.parseRecordLine
        (PyInstrument.recordChars "2018-07-14T21:57:15.234".data "7.84".data ++ ['\n']) =
      some ("2018-07-14T21:57:15.234".data, "7.8".data) ∧
      "7.8".data ≠ "7.84".data := by decide

/-- C3 amended: a record line parses back to the timestamp and to the
response with its final character removed (the original response exactly
when the raw line ends in a carriage return), provided timestamp and
trimmed response contain no comma and no whitespace; and the parsed time
axis is monotonically non-decreasing whenever the timestamps are. -/
theorem record_roundtrip_amended (dt line : List Char)
    (hdt : ∀ c ∈ dt, Charge2.isPySpace c = false ∧ c ≠ ',')
    (hv : ∀ c ∈ line.dropLast, Charge2.isPySpace c = false ∧ c ≠ ',') :
    Charge2.parseRecordLine (PyInstrument.recordChars dt line ++ ['\n']) =
        some (dt, line.dropLast) ∧
      ∀ dts : List ℚ, dts.Chain' (· ≤ ·) → (Charge2.timeAxis none dts).Chain' (· ≤ ·) :=
  ⟨parse_record dt line hdt hv, fun dts h => timeAxis_mono dts h⟩

/-- C3 witness: the theorem applied to a concrete timestamp and response. -/
theorem record_roundtrip_amended_witness :
    Charge2.parseRecordLine
        (PyInstrument.recordChars "2018-07-14T21:57:15.234".data "7.84\r".data ++ ['\n']) =
        some ("2018-07-14T21:57:15.234".data, "7.84".data) ∧
      ∀ dts : List ℚ, dts.Chain' (· ≤ ·) → (Charge2.timeAxis none dts).Chain' (· ≤ ·) := by
  have h := record_roundtrip_amended "2018-07-14T21:57:15.234".data "7.84\r".data
    (by decide) (by decide)
  simpa using h

end DigitalVFO
